import Mathlib

/-!
Verification of `migration_checker.py` (django-migration-linter).

The script is embedded shallowly: strings are `List Char`, the external
world (git diff output, `python manage.py sqlmigrate` output, the file
system) is passed in as explicit data, and Python exceptions are modelled
with `Except String`.
-/

set_option maxRecDepth 4000

/-- Python `str.strip` whitespace set (ASCII). -/
def isPySpace (c : Char) : Bool :=
  c = ' ' || c = '\t' || c = '\n' || c = '\r' || c = '\x0b' || c = '\x0c'

/-- Python `line.strip()`: drop leading and trailing whitespace. -/
def pyStrip (s : List Char) : List Char :=
  ((s.dropWhile isPySpace).reverse.dropWhile isPySpace).reverse

/-- Python substring test `pat in s`, which is also the semantics of
`re.search(pat, s)` for the two literal patterns of the script. -/
def strContains (pat : List Char) : List Char → Bool
  | [] => pat.isEmpty
  | c :: t => pat.isPrefixOf (c :: t) || strContains pat t

/-- `pat` occurs as a contiguous substring of `s`. -/
def ContainsSpec (pat s : List Char) : Prop :=
  ∃ pre post, s = pre ++ pat ++ post

/-- Scan for an occurrence of `" DEFAULT"` reachable from the current
position without crossing a newline (the `.*` of the regex
`ADD COLUMN .* DEFAULT` cannot match `\n`). -/
def scanForDefault : List Char → Bool
  | [] => false
  | c :: t => (" DEFAULT").toList.isPrefixOf (c :: t) || (c ≠ '\n' && scanForDefault t)

/-- Semantics of Python `re.search('ADD COLUMN .* DEFAULT', s)`:
somewhere in `s`, the literal `"ADD COLUMN "` is followed, after a
newline-free gap, by the literal `" DEFAULT"`. -/
def matchAddColumnDefault : List Char → Bool
  | [] => false
  | c :: t =>
      (("ADD COLUMN ").toList.isPrefixOf (c :: t)
        && scanForDefault ((c :: t).drop ("ADD COLUMN ").toList.length))
      || matchAddColumnDefault t

/-- Declarative reading of the regex `ADD COLUMN .* DEFAULT`. -/
def AddColDefaultSpec (s : List Char) : Prop :=
  ∃ pre mid post,
    s = pre ++ ("ADD COLUMN ").toList ++ mid ++ (" DEFAULT").toList ++ post ∧
      '\n' ∉ mid

/-! ## The embedded script -/

/-- `MigrationChecker.MIGRATION_FOLDER_NAME`. -/
def MIGRATION_FOLDER_NAME : List Char := ("migrations").toList

/-- `MigrationChecker.migration_tests`: the fixed table of three regex
rules with their error messages. -/
def migration_tests : List ((List Char → Bool) × String) :=
  [ (fun sql => strContains ("NOT NULL").toList sql, "NOT NULL constraint on columns"),
    (fun sql => strContains ("DROP COLUMN").toList sql, "DROPPING columns"),
    (fun sql => matchAddColumnDefault sql, "ADD columns with default") ]

/-- The loop of `_test_sql_statement_for_backward_incompatibility`. -/
def testStatementAux : List ((List Char → Bool) × String) → List Char → Bool × Option String
  | [], _ => (true, none)
  | t :: rest, sql => if t.1 sql then (false, some t.2) else testStatementAux rest sql

/-- `MigrationChecker._test_sql_statement_for_backward_incompatibility`. -/
def _test_sql_statement_for_backward_incompatibility (sql_statement : List Char) :
    Bool × Option String :=
  testStatementAux migration_tests sql_statement

/-- `MigrationChecker.django_sqlmigrate` as a function of the raw stdout
lines of the external `manage.py sqlmigrate` command. -/
def django_sqlmigrate : List (List Char) → List (List Char)
  | [] => []
  | line :: rest =>
      if ("--").toList.isPrefixOf line then django_sqlmigrate rest
      else pyStrip line :: django_sqlmigrate rest

/-- Python list indexing, with negative-index wraparound;
`none` models an `IndexError`. -/
def pyIdx {α : Type} (l : List α) (i : Int) : Option α :=
  if 0 ≤ i then l[i.toNat]?
  else if 0 ≤ i + l.length then l[(i + l.length).toNat]?
  else none

/-- `os.path.split` (posixpath): split off the last path component. -/
def os_path_split (p : List Char) : List Char × List Char :=
  let tail := (p.reverse.takeWhile (fun c => c != '/')).reverse
  let head0 := (p.reverse.dropWhile (fun c => c != '/')).reverse
  let head :=
    if head0.isEmpty || head0.all (fun c => c == '/') then head0
    else (head0.reverse.dropWhile (fun c => c == '/')).reverse
  (head, tail)

/-- The recursion of `split_path`, with fuel; running out of fuel
(`none`) models the `RecursionError` the source hits when the head of
the path no longer shrinks (all-slash heads of absolute paths). -/
def split_path_fuel : Nat → List Char → Option (List (List Char))
  | 0, _ => none
  | fuel + 1, path =>
      let ab := os_path_split path
      if ab.1.length > 0 then
        match split_path_fuel fuel ab.1 with
        | none => none
        | some l => some (l ++ [ab.2])
      else some [ab.2]

/-- `split_path`. -/
def split_path (path : List Char) : Option (List (List Char)) :=
  split_path_fuel (path.length + 1) path

/-- `os.path.splitext(b)[0]` for a single path component (no slash). -/
def splitext_root (b : List Char) : List Char :=
  if '.' ∈ b then
    let tail := b.reverse.takeWhile (fun c => c != '.')
    let stem := b.take (b.length - tail.length - 1)
    if stem.all (fun c => c == '.') then b else stem
  else b

/-- The indexed loop of `_split_migration_path`. -/
def splitLoop (decomposed : List (List Char)) :
    Nat → List (List Char) → Except String (Option (List Char × List Char))
  | _, [] => .ok none
  | i, p :: rest =>
      if p = MIGRATION_FOLDER_NAME then
        match pyIdx decomposed ((i : Int) - 1), pyIdx decomposed ((i : Int) + 1) with
        | some a, some b => .ok (some (a, splitext_root b))
        | _, _ => .error "IndexError"
      else splitLoop decomposed (i + 1) rest

/-- `MigrationChecker._split_migration_path`; `Except.error` models an
uncaught Python exception, `.ok none` the implicit `None` return. -/
def _split_migration_path (migration_path : List Char) :
    Except String (Option (List Char × List Char)) :=
  match split_path migration_path with
  | none => .error "RecursionError"
  | some decomposed => splitLoop decomposed 0 decomposed

/-- The diff-reading loop of `_gather_migrations`. -/
def gatherLoop : List (List Char) → List (List Char)
  | [] => []
  | line :: rest =>
      if strContains MIGRATION_FOLDER_NAME line then pyStrip line :: gatherLoop rest
      else gatherLoop rest

/-- `MigrationChecker._gather_migrations`, as a function of the git diff
command's stdout lines and return code. -/
def _gather_migrations (diffLines : List (List Char)) (returncode : Int) :
    Except String (List (List Char)) :=
  let files := gatherLoop diffLines
  if returncode ≠ 0 then .error "Error while executing git diff command"
  else .ok files

/-- The `errors` set of `check_migrations`, as an insertion-ordered
duplicate-free list. (The `(false, none)` branch is unreachable: see
`test_cases_shape`.) -/
def collectErrorsAux : List String → List (List Char) → List String
  | errors, [] => errors
  | errors, statement :: rest =>
      match _test_sql_statement_for_backward_incompatibility statement with
      | (true, _) => collectErrorsAux errors rest
      | (false, some msg) =>
          collectErrorsAux (if msg ∈ errors then errors else errors ++ [msg]) rest
      | (false, none) => collectErrorsAux errors rest

def collectErrors (sql_statements : List (List Char)) : List String :=
  collectErrorsAux [] sql_statements

/-- The sqlmigrate oracle: raw stdout lines of
`python manage.py sqlmigrate app_name migration_name`. -/
abbrev Render : Type := List Char → List Char → List (List Char)

def summaryLine (nb_valid nb_erroneous total : Nat) : String :=
  "Valid migrations: " ++ toString nb_valid ++ "/" ++ toString total ++
    " - erroneous migrations: " ++ toString nb_erroneous ++ "/" ++ toString total

/-- The per-migration loop of `check_migrations`, threading the two
counters and the printed lines. -/
def check_loop (render : Render) :
    List (List Char) → Nat → Nat → List String → Except String (Nat × Nat × List String)
  | [], nb_valid, nb_erroneous, out => .ok (nb_valid, nb_erroneous, out)
  | migration :: rest, nb_valid, nb_erroneous, out =>
      match _split_migration_path migration with
      | .error e => .error e
      | .ok none => .error "TypeError"
      | .ok (some (app_name, migration_name)) =>
          if (collectErrors (django_sqlmigrate (render app_name migration_name))).isEmpty then
            check_loop render rest (nb_valid + 1) nb_erroneous
              (out ++ [String.mk migration ++ "... OK"])
          else
            check_loop render rest nb_valid (nb_erroneous + 1)
              ((out ++ [String.mk migration ++ "... ERR"]) ++
                (collectErrors (django_sqlmigrate (render app_name migration_name))).map
                  (fun e => "\t" ++ e))

/-- `MigrationChecker.check_migrations`. -/
def check_migrations (render : Render) (changed_migration_files : List (List Char)) :
    Except String (Nat × Nat × List String) :=
  match check_loop render changed_migration_files 0 0 [] with
  | .error e => .error e
  | .ok (nb_valid, nb_erroneous, out) =>
      .ok (nb_valid, nb_erroneous,
        out ++ ["*** Summary:",
          summaryLine nb_valid nb_erroneous changed_migration_files.length])

/-- Constructing the checker (which gathers) and running
`check_migrations`: the `__main__` path after folder validation. -/
def run_checker (diffLines : List (List Char)) (returncode : Int) (render : Render) :
    Except String (Nat × Nat × List String) :=
  match _gather_migrations diffLines returncode with
  | .error e => .error e
  | .ok files => check_migrations render files

/-- The file-system facts `valid_folder` consults. -/
structure FileSystem where
  isdir : String → Bool
  isfile : String → Bool

/-- `os.path.join` (posixpath, two arguments). -/
def os_path_join (a b : String) : String :=
  if b.startsWith "/" then b
  else if a = "" || a.endsWith "/" then a ++ b
  else a ++ "/" ++ b

/-- `valid_folder`, returning the boolean result and the printed lines. -/
def valid_folder (fs : FileSystem) (folder : String) : Bool × List String :=
  if !(fs.isdir folder) then
    (false, ["The passed argument doesn\x27t seem to be a folder."])
  else if !(fs.isfile (os_path_join folder "manage.py")) then
    (false, ["The passed folder doesn\x27t seem to be a django project (no manage.py found)."])
  else if !(fs.isdir (os_path_join folder ".git")) then
    (false, ["The passed folder doesn\x27t seem to versioned by git (no .git/ folder found)."])
  else (true, [])

/-- The `__main__` block after argument parsing: `none` when
`valid_folder` failed, so no `MigrationChecker` is constructed. -/
def main_entry (fs : FileSystem) (folder : String) (diffLines : List (List Char))
    (returncode : Int) (render : Render) :
    Option (Except String (Nat × Nat × List String)) :=
  if (valid_folder fs folder).1 then some (run_checker diffLines returncode render)
  else none

/-- CPython process exit status: 0 on normal termination, 1 on an
uncaught exception. The script itself never calls `sys.exit`. -/
def program_exit_code (fs : FileSystem) (folder : String) (diffLines : List (List Char))
    (returncode : Int) (render : Render) : Nat :=
  match main_entry fs folder diffLines returncode render with
  | none => 0
  | some (.ok _) => 0
  | some (.error _) => 1

/-- The migration at this path is classified erroneous under `render`. -/
def migration_flagged (render : Render) (migration : List Char) : Bool :=
  match _split_migration_path migration with
  | .ok (some (app_name, migration_name)) =>
      !(collectErrors (django_sqlmigrate (render app_name migration_name))).isEmpty
  | _ => false

/-- Example file-system oracles and external-command outputs used in the
concrete runs below. -/
def exampleRender : Render := fun _ migration_name =>
  if migration_name = ("0002_drop").toList then
    [("ALTER TABLE t DROP COLUMN c;\n").toList]
  else
    [("CREATE TABLE t (id integer);\n").toList]

def exampleFiles : List (List Char) :=
  [("app/migrations/0001_initial.py").toList, ("app/migrations/0002_drop.py").toList]

def badFS : FileSystem := ⟨fun _ => false, fun _ => false⟩

def goodFS : FileSystem := ⟨fun _ => true, fun _ => true⟩

/-! ## Theorems -/

theorem isPrefixOf_iff_exists (p : List Char) :
    ∀ s : List Char, p.isPrefixOf s = true ↔ ∃ t, s = p ++ t := by
  induction p with
  | nil =>
      intro s
      simp [List.isPrefixOf]
  | cons a as ih =>
      intro s
      cases s with
      | nil =>
          simp [List.isPrefixOf]
      | cons b bs =>
          simp only [List.isPrefixOf, Bool.and_eq_true, beq_iff_eq, ih bs]
          constructor
          · rintro ⟨rfl, t, rfl⟩
            exact ⟨t, rfl⟩
          · rintro ⟨t, h⟩
            cases h
            exact ⟨rfl, t, rfl⟩

theorem strContains_iff (pat : List Char) :
    ∀ s : List Char, strContains pat s = true ↔ ContainsSpec pat s := by
  intro s
  induction s with
  | nil =>
      simp only [strContains, List.isEmpty_iff, ContainsSpec]
      constructor
      · rintro rfl
        exact ⟨[], [], rfl⟩
      · rintro ⟨pre, post, h⟩
        rcases List.append_eq_nil.mp h.symm with ⟨h1, _⟩
        rcases List.append_eq_nil.mp h1 with ⟨_, h3⟩
        exact h3
  | cons c t ih =>
      simp only [strContains, Bool.or_eq_true, isPrefixOf_iff_exists, ih, ContainsSpec]
      constructor
      · rintro (⟨post, h⟩ | ⟨pre, post, h⟩)
        · exact ⟨[], post, by simpa using h⟩
        · exact ⟨c :: pre, post, by simp [h]⟩
      · rintro ⟨pre, post, h⟩
        cases pre with
        | nil =>
            exact Or.inl ⟨post, by simpa using h⟩
        | cons p ps =>
            right
            refine ⟨ps, post, ?_⟩
            simpa using congrArg List.tail h

theorem dpat_ne_nil : (" DEFAULT").toList ≠ [] := by decide

theorem apat_ne_nil : ("ADD COLUMN ").toList ≠ [] := by decide

theorem scanForDefault_iff :
    ∀ s : List Char, scanForDefault s = true ↔
      ∃ mid post, s = mid ++ (" DEFAULT").toList ++ post ∧ '\n' ∉ mid := by
  intro s
  induction s with
  | nil =>
      simp only [scanForDefault]
      constructor
      · intro h
        exact absurd h (by simp)
      · rintro ⟨mid, post, h, -⟩
        rcases List.append_eq_nil.mp h.symm with ⟨h1, -⟩
        rcases List.append_eq_nil.mp h1 with ⟨-, h2⟩
        exact absurd h2 dpat_ne_nil
  | cons c t ih =>
      simp only [scanForDefault, Bool.or_eq_true, Bool.and_eq_true, decide_eq_true_eq,
        isPrefixOf_iff_exists, ih]
      constructor
      · rintro (⟨rest, h⟩ | ⟨hc, mid, post, h, hn⟩)
        · exact ⟨[], rest, by simpa using h, by simp⟩
        · refine ⟨c :: mid, post, by simp [h], ?_⟩
          intro hmem
          rcases List.mem_cons.mp hmem with h1 | h2
          · exact hc h1.symm
          · exact hn h2
      · rintro ⟨mid, post, h, hn⟩
        cases mid with
        | nil =>
            exact Or.inl ⟨post, by simpa using h⟩
        | cons m ms =>
            right
            have hcm : c = m ∧ t = ms ++ (" DEFAULT").toList ++ post := by
              simpa using h
            refine ⟨?_, ms, post, hcm.2, fun hm => hn (List.mem_cons.mpr (Or.inr hm))⟩
            intro hc
            exact hn (List.mem_cons.mpr (Or.inl (by rw [← hcm.1, hc])))

theorem matchAddColumnDefault_iff :
    ∀ s : List Char, matchAddColumnDefault s = true ↔ AddColDefaultSpec s := by
  intro s
  induction s with
  | nil =>
      simp only [matchAddColumnDefault, AddColDefaultSpec]
      constructor
      · intro h
        exact absurd h (by simp)
      · rintro ⟨pre, mid, post, h, -⟩
        rcases List.append_eq_nil.mp h.symm with ⟨h1, -⟩
        rcases List.append_eq_nil.mp h1 with ⟨-, h2⟩
        exact absurd h2 dpat_ne_nil
  | cons c t ih =>
      simp only [matchAddColumnDefault, Bool.or_eq_true, Bool.and_eq_true,
        isPrefixOf_iff_exists, scanForDefault_iff, ih, AddColDefaultSpec]
      constructor
      · rintro (⟨⟨rest, hpre⟩, mid, post, hdrop, hn⟩ | ⟨pre, mid, post, h, hn⟩)
        · have hrest : (c :: t).drop ("ADD COLUMN ").toList.length = rest := by
            rw [hpre]
            exact List.drop_left _ _
          rw [hrest] at hdrop
          refine ⟨[], mid, post, ?_, hn⟩
          rw [hpre, hdrop]
          simp [List.append_assoc]
        · exact ⟨c :: pre, mid, post, by simp [h], hn⟩
      · rintro ⟨pre, mid, post, h, hn⟩
        cases pre with
        | nil =>
            left
            have h' : c :: t = ("ADD COLUMN ").toList ++ (mid ++ (" DEFAULT").toList ++ post) := by
              rw [h]
              simp [List.append_assoc]
            refine ⟨⟨_, h'⟩, mid, post, ?_, hn⟩
            rw [h']
            exact List.drop_left _ _
        | cons p ps =>
            right
            have hcm : c = p ∧ t = ps ++ ("ADD COLUMN ").toList ++ mid ++ (" DEFAULT").toList ++ post := by
              simpa using h
            exact ⟨ps, mid, post, hcm.2, hn⟩

/-! ## Helper lemmas -/

theorem test_eq_cases (s : List Char) :
    _test_sql_statement_for_backward_incompatibility s =
      if strContains ("NOT NULL").toList s then (false, some "NOT NULL constraint on columns")
      else if strContains ("DROP COLUMN").toList s then (false, some "DROPPING columns")
      else if matchAddColumnDefault s then (false, some "ADD columns with default")
      else (true, none) := by
  simp only [ _test_sql_statement_for_backward_incompatibility, migration_tests, testStatementAux]

theorem test_flagged_iff (s : List Char) :
    ( _test_sql_statement_for_backward_incompatibility s).1 = false ↔
      (ContainsSpec ("NOT NULL").toList s ∨ ContainsSpec ("DROP COLUMN").toList s ∨
        AddColDefaultSpec s) := by
  rw [test_eq_cases]
  split_ifs with h1 h2 h3
  · simpa using Or.inl ((strContains_iff _ s).mp h1)
  · simpa using Or.inr (Or.inl ((strContains_iff _ s).mp h2))
  · simpa using Or.inr (Or.inr ((matchAddColumnDefault_iff s).mp h3))
  · constructor
    · intro h
      exact absurd h (by simp)
    · rintro (h | h | h)
      · exact absurd ((strContains_iff _ s).mpr h) h1
      · exact absurd ((strContains_iff _ s).mpr h) h2
      · exact absurd ((matchAddColumnDefault_iff s).mpr h) h3

theorem test_valid_iff (s : List Char) :
    ( _test_sql_statement_for_backward_incompatibility s).1 = true ↔
      ¬(ContainsSpec ("NOT NULL").toList s ∨ ContainsSpec ("DROP COLUMN").toList s ∨
        AddColDefaultSpec s) := by
  rw [← test_flagged_iff]
  cases h : ( _test_sql_statement_for_backward_incompatibility s).1 <;> simp [h]

theorem test_cases_shape (s : List Char) :
    _test_sql_statement_for_backward_incompatibility s = (true, none) ∨
      ∃ m, _test_sql_statement_for_backward_incompatibility s = (false, some m) := by
  rw [test_eq_cases]
  split_ifs
  · exact Or.inr ⟨_, rfl⟩
  · exact Or.inr ⟨_, rfl⟩
  · exact Or.inr ⟨_, rfl⟩
  · exact Or.inl rfl

theorem collectErrorsAux_extends :
    ∀ (stmts : List (List Char)) (errors : List String),
      ∃ ext, collectErrorsAux errors stmts = errors ++ ext := by
  intro stmts
  induction stmts with
  | nil =>
      intro errors
      exact ⟨[], by simp [collectErrorsAux]⟩
  | cons st rest ih =>
      intro errors
      rcases hts : _test_sql_statement_for_backward_incompatibility st with ⟨b, m⟩
      cases b
      · cases m with
        | none =>
            rcases ih errors with ⟨ext, hext⟩
            exact ⟨ext, by simp [collectErrorsAux, hts, hext]⟩
        | some msg =>
            by_cases hmem : msg ∈ errors
            · rcases ih errors with ⟨ext, hext⟩
              exact ⟨ext, by simp [collectErrorsAux, hts, hmem, hext]⟩
            · rcases ih (errors ++ [msg]) with ⟨ext, hext⟩
              exact ⟨[msg] ++ ext, by simp [collectErrorsAux, hts, hmem, hext]⟩
      · rcases ih errors with ⟨ext, hext⟩
        exact ⟨ext, by simp [collectErrorsAux, hts, hext]⟩

theorem collectErrorsAux_nodup :
    ∀ (stmts : List (List Char)) (errors : List String),
      errors.Nodup → (collectErrorsAux errors stmts).Nodup := by
  intro stmts
  induction stmts with
  | nil =>
      intro errors h
      simpa [collectErrorsAux] using h
  | cons st rest ih =>
      intro errors hnd
      rcases hts : _test_sql_statement_for_backward_incompatibility st with ⟨b, m⟩
      cases b
      · cases m with
        | none =>
            simpa [collectErrorsAux, hts] using ih errors hnd
        | some msg =>
            by_cases hmem : msg ∈ errors
            · simpa [collectErrorsAux, hts, hmem] using ih errors hnd
            · have hnd' : (errors ++ [msg]).Nodup := by
                rw [List.nodup_append]
                refine ⟨hnd, List.nodup_singleton _, ?_⟩
                intro a ha hb
                rw [List.mem_singleton] at hb
                subst hb
                exact hmem ha
              simpa [collectErrorsAux, hts, hmem] using ih (errors ++ [msg]) hnd'
      · simpa [collectErrorsAux, hts] using ih errors hnd

theorem collectErrors_nodup (stmts : List (List Char)) : (collectErrors stmts).Nodup :=
  collectErrorsAux_nodup stmts [] List.nodup_nil

theorem collectErrorsAux_eq_nil_iff :
    ∀ (stmts : List (List Char)) (errors : List String),
      collectErrorsAux errors stmts = [] ↔
        (errors = [] ∧ ∀ st ∈ stmts,
          ( _test_sql_statement_for_backward_incompatibility st).1 = true) := by
  intro stmts
  induction stmts with
  | nil =>
      intro errors
      simp [collectErrorsAux]
  | cons st rest ih =>
      intro errors
      rcases test_cases_shape st with hts | ⟨msg, hts⟩
      · have hP : ( _test_sql_statement_for_backward_incompatibility st).1 = true := by
          rw [hts]
        simp [collectErrorsAux, hts, ih, List.forall_mem_cons, hP]
      · have hP : ( _test_sql_statement_for_backward_incompatibility st).1 = false := by
          rw [hts]
        simp only [collectErrorsAux, hts]
        constructor
        · intro h
          exfalso
          by_cases hmem : msg ∈ errors
          · rw [if_pos hmem] at h
            rcases collectErrorsAux_extends rest errors with ⟨ext, hext⟩
            rw [hext] at h
            rcases List.append_eq_nil.mp h with ⟨he, -⟩
            rw [he] at hmem
            simp at hmem
          · rw [if_neg hmem] at h
            rcases collectErrorsAux_extends rest (errors ++ [msg]) with ⟨ext, hext⟩
            rw [hext] at h
            rcases List.append_eq_nil.mp h with ⟨he, -⟩
            rcases List.append_eq_nil.mp he with ⟨-, h2⟩
            simp at h2
        · rintro ⟨-, hall⟩
          have hv := hall st (List.mem_cons_self st rest)
          rw [hP] at hv
          simp at hv

theorem collectErrors_eq_nil_iff (stmts : List (List Char)) :
    collectErrors stmts = [] ↔
      ∀ st ∈ stmts, ( _test_sql_statement_for_backward_incompatibility st).1 = true := by
  rw [collectErrors, collectErrorsAux_eq_nil_iff]
  simp

theorem gatherLoop_eq (lines : List (List Char)) :
    gatherLoop lines =
      (lines.filter (fun l => strContains MIGRATION_FOLDER_NAME l)).map pyStrip := by
  induction lines with
  | nil => simp [gatherLoop]
  | cons l rest ih =>
      by_cases h : strContains MIGRATION_FOLDER_NAME l = true
      · simp [gatherLoop, h, ih, List.filter_cons]
      · simp [gatherLoop, h, ih, List.filter_cons]

theorem django_sqlmigrate_eq (lines : List (List Char)) :
    django_sqlmigrate lines =
      (lines.filter (fun l => !(("--").toList.isPrefixOf l))).map pyStrip := by
  induction lines with
  | nil => simp [django_sqlmigrate]
  | cons l rest ih =>
      simp only [django_sqlmigrate, List.filter_cons]
      by_cases h : ("--").toList.isPrefixOf l = true
      · rw [if_pos h, if_neg (by rw [h]; simp), ih]
      · have h' : ("--").toList.isPrefixOf l = false := by
          cases hb : ("--").toList.isPrefixOf l
          · rfl
          · exact absurd hb h
        rw [if_neg h, if_pos (by rw [h']; rfl), List.map_cons, ih]

theorem countP_cons_true {α : Type} {p : α → Bool} {m : α} (rest : List α)
    (h : p m = true) : (m :: rest).countP p = rest.countP p + 1 := by
  simp [List.countP_cons, h]

theorem countP_cons_false {α : Type} {p : α → Bool} {m : α} (rest : List α)
    (h : p m = false) : (m :: rest).countP p = rest.countP p := by
  simp [List.countP_cons, h]

theorem check_loop_cons (render : Render) (m : List Char) (rest : List (List Char))
    (v e : Nat) (out : List String) :
    check_loop render (m :: rest) v e out =
      match _split_migration_path m with
      | .error err => .error err
      | .ok none => .error "TypeError"
      | .ok (some (a, g)) =>
          if (collectErrors (django_sqlmigrate (render a g))).isEmpty then
            check_loop render rest (v + 1) e (out ++ [String.mk m ++ "... OK"])
          else
            check_loop render rest v (e + 1)
              ((out ++ [String.mk m ++ "... ERR"]) ++
                (collectErrors (django_sqlmigrate (render a g))).map (fun s => "\t" ++ s)) :=
  rfl

theorem check_loop_cons_error {m : List Char} {err : String} (render : Render)
    (rest : List (List Char)) (v e : Nat) (out : List String)
    (hsp : _split_migration_path m = .error err) :
    check_loop render (m :: rest) v e out = .error err := by
  rw [check_loop_cons, hsp]

theorem check_loop_cons_none {m : List Char} (render : Render)
    (rest : List (List Char)) (v e : Nat) (out : List String)
    (hsp : _split_migration_path m = .ok none) :
    check_loop render (m :: rest) v e out = .error "TypeError" := by
  rw [check_loop_cons, hsp]

theorem check_loop_cons_some {m a g : List Char} (render : Render)
    (rest : List (List Char)) (v e : Nat) (out : List String)
    (hsp : _split_migration_path m = .ok (some (a, g))) :
    check_loop render (m :: rest) v e out =
      if (collectErrors (django_sqlmigrate (render a g))).isEmpty then
        check_loop render rest (v + 1) e (out ++ [String.mk m ++ "... OK"])
      else
        check_loop render rest v (e + 1)
          ((out ++ [String.mk m ++ "... ERR"]) ++
            (collectErrors (django_sqlmigrate (render a g))).map (fun s => "\t" ++ s)) := by
  rw [check_loop_cons, hsp]

theorem check_migrations_eq (render : Render) (files : List (List Char)) :
    check_migrations render files =
      match check_loop render files 0 0 [] with
      | .error e => .error e
      | .ok (v, e, out) =>
          .ok (v, e, out ++ ["*** Summary:", summaryLine v e files.length]) :=
  rfl

theorem check_loop_counts (render : Render) :
    ∀ (files : List (List Char)) (v0 e0 : Nat) (out0 : List String) (v e : Nat)
      (out : List String),
      check_loop render files v0 e0 out0 = .ok (v, e, out) →
        v = v0 + files.countP (fun m => ! migration_flagged render m) ∧
        e = e0 + files.countP (migration_flagged render) := by
  intro files
  induction files with
  | nil =>
      intro v0 e0 out0 v e out h
      simp only [check_loop, Except.ok.injEq, Prod.mk.injEq] at h
      obtain ⟨rfl, rfl, -⟩ := h
      simp [List.countP_nil]
  | cons m rest ih =>
      intro v0 e0 out0 v e out h
      rcases hsp : _split_migration_path m with err | opt
      · rw [check_loop_cons_error render rest v0 e0 out0 hsp] at h
        simp at h
      · rcases opt with - | ⟨a, g⟩
        · rw [check_loop_cons_none render rest v0 e0 out0 hsp] at h
          simp at h
        · rw [check_loop_cons_some render rest v0 e0 out0 hsp] at h
          have hflag : migration_flagged render m =
              !(collectErrors (django_sqlmigrate (render a g))).isEmpty := by
            rw [migration_flagged, hsp]
          by_cases hE : (collectErrors (django_sqlmigrate (render a g))).isEmpty = true
          · rw [if_pos hE] at h
            obtain ⟨hv, he⟩ := ih _ _ _ _ _ _ h
            have hf : migration_flagged render m = false := by
              rw [hflag, hE]
              rfl
            refine ⟨?_, ?_⟩
            · rw [hv, countP_cons_true rest (by simp [hf])]
              omega
            · rw [he, countP_cons_false rest hf]
          · rw [if_neg hE] at h
            obtain ⟨hv, he⟩ := ih _ _ _ _ _ _ h
            have hf : migration_flagged render m = true := by
              rw [hflag]
              cases hb : (collectErrors (django_sqlmigrate (render a g))).isEmpty
              · rfl
              · exact absurd hb hE
            refine ⟨?_, ?_⟩
            · rw [hv, countP_cons_false rest (by simp [hf])]
            · rw [he, countP_cons_true rest hf]
              omega

theorem check_loop_isOk (render : Render) :
    ∀ (files : List (List Char)) (v0 e0 : Nat) (out0 : List String),
      (∀ p ∈ files, ∃ pr, _split_migration_path p = .ok (some pr)) →
      ∃ r, check_loop render files v0 e0 out0 = .ok r := by
  intro files
  induction files with
  | nil =>
      intro v0 e0 out0 _h
      exact ⟨(v0, e0, out0), rfl⟩
  | cons m rest ih =>
      intro v0 e0 out0 hall
      rcases hall m (List.mem_cons_self m rest) with ⟨⟨a, g⟩, hsp⟩
      have hrest : ∀ p ∈ rest, ∃ pr, _split_migration_path p = .ok (some pr) :=
        fun p hp => hall p (List.mem_cons_of_mem m hp)
      rw [check_loop_cons_some render rest v0 e0 out0 hsp]
      by_cases hE : (collectErrors (django_sqlmigrate (render a g))).isEmpty = true
      · rw [if_pos hE]
        exact ih _ _ _ hrest
      · rw [if_neg hE]
        exact ih _ _ _ hrest

theorem _split_eq (p : List Char) :
    _split_migration_path p =
      match split_path p with
      | none => .error "RecursionError"
      | some d => splitLoop d 0 d :=
  rfl

theorem migration_flagged_eq (render : Render) (m : List Char) :
    migration_flagged render m =
      match _split_migration_path m with
      | .ok (some (a, g)) =>
          !(collectErrors (django_sqlmigrate (render a g))).isEmpty
      | _ => false :=
  rfl

theorem splitLoop_cons (d : List (List Char)) (k : Nat) (p : List Char)
    (ps : List (List Char)) :
    splitLoop d k (p :: ps) =
      if p = MIGRATION_FOLDER_NAME then
        match pyIdx d ((k : Int) - 1), pyIdx d ((k : Int) + 1) with
        | some a, some b => .ok (some (a, splitext_root b))
        | _, _ => .error "IndexError"
      else splitLoop d (k + 1) ps :=
  rfl

theorem splitLoop_not_found (d : List (List Char)) :
    ∀ (rest : List (List Char)) (k : Nat),
      (∀ p ∈ rest, p ≠ MIGRATION_FOLDER_NAME) → splitLoop d k rest = .ok none := by
  intro rest
  induction rest with
  | nil =>
      intro k _h
      rfl
  | cons p ps ih =>
      intro k hall
      rw [splitLoop_cons, if_neg (hall p (List.mem_cons_self p ps))]
      exact ih (k + 1) (fun q hq => hall q (List.mem_cons_of_mem p hq))

theorem splitLoop_found (d : List (List Char)) :
    ∀ (pre suf : List (List Char)) (k : Nat),
      (∀ p ∈ pre, p ≠ MIGRATION_FOLDER_NAME) →
      splitLoop d k (pre ++ MIGRATION_FOLDER_NAME :: suf) =
        match pyIdx d (((k + pre.length : Nat) : Int) - 1),
              pyIdx d (((k + pre.length : Nat) : Int) + 1) with
        | some a, some b => .ok (some (a, splitext_root b))
        | _, _ => .error "IndexError" := by
  intro pre
  induction pre with
  | nil =>
      intro suf k _h
      rw [List.nil_append, splitLoop_cons, if_pos rfl]
      simp
  | cons q qs ih =>
      intro suf k hall
      have hq : q ≠ MIGRATION_FOLDER_NAME := hall q (List.mem_cons_self q qs)
      rw [List.cons_append, splitLoop_cons, if_neg hq,
        ih suf (k + 1) (fun p hp => hall p (List.mem_cons_of_mem q hp))]
      have harith : (k + 1) + qs.length = k + (q :: qs).length := by
        simp only [List.length_cons]
        omega
      rw [harith]

theorem exists_first_split {α : Type} [DecidableEq α] {a : α} :
    ∀ {l : List α}, a ∈ l → ∃ s t, l = s ++ a :: t ∧ a ∉ s := by
  intro l
  induction l with
  | nil =>
      intro h
      simp at h
  | cons x xs ih =>
      intro h
      by_cases hx : x = a
      · exact ⟨[], xs, by rw [hx, List.nil_append], by simp⟩
      · have hmem : a ∈ xs := by
          rcases List.mem_cons.mp h with h1 | h2
          · exact absurd h1.symm hx
          · exact h2
        rcases ih hmem with ⟨s, t, hst, hns⟩
        refine ⟨x :: s, t, by rw [List.cons_append, hst], ?_⟩
        intro hmem2
        rcases List.mem_cons.mp hmem2 with h1 | h2
        · exact hx h1.symm
        · exact hns h2

theorem first_split_min {α : Type} {a : α} :
    ∀ (s t s' t' : List α),
      s ++ a :: t = s' ++ a :: t' → a ∉ s → s.length ≤ s'.length := by
  intro s
  induction s with
  | nil =>
      intro t s' t' _ _
      exact Nat.zero_le _
  | cons x xs ih =>
      intro t s' t' heq hna
      cases s' with
      | nil =>
          exfalso
          have hx : x = a := by simpa using congrArg List.head? heq
          exact hna (by rw [hx]; exact List.mem_cons_self a xs)
      | cons y ys =>
          have h1 : x = y ∧ xs ++ a :: t = ys ++ a :: t' := by simpa using heq
          have hna' : a ∉ xs := fun hm => hna (List.mem_cons_of_mem x hm)
          simpa using Nat.succ_le_succ (ih t ys t' h1.2 hna')

theorem pyIdx_ofNat {α : Type} (l : List α) (n : Nat) : pyIdx l (n : Int) = l[n]? := by
  rw [pyIdx, if_pos (Int.natCast_nonneg n)]
  simp

theorem pyIdx_neg_one {α : Type} (l : List α) (h : l ≠ []) :
    pyIdx l (-1) = l[l.length - 1]? := by
  have hl : 0 < l.length := List.length_pos.mpr h
  have h1 : ¬(0 ≤ (-1 : Int)) := by omega
  have h2 : 0 ≤ (-1 : Int) + l.length := by omega
  have h3 : ((-1 : Int) + l.length).toNat = l.length - 1 := by omega
  rw [pyIdx, if_neg h1, if_pos h2, h3]

theorem split_found_pair (p : List Char) (d pre suf : List (List Char))
    (hsp : split_path p = some d) (hd : d = pre ++ MIGRATION_FOLDER_NAME :: suf)
    (hfirst : MIGRATION_FOLDER_NAME ∉ pre) :
    _split_migration_path p =
      match pyIdx d ((pre.length : Int) - 1), pyIdx d ((pre.length : Int) + 1) with
      | some a, some b => .ok (some (a, splitext_root b))
      | _, _ => .error "IndexError" := by
  subst hd
  rw [ _split_eq, hsp]
  show splitLoop (pre ++ MIGRATION_FOLDER_NAME :: suf) 0
      (pre ++ MIGRATION_FOLDER_NAME :: suf) = _
  rw [splitLoop_found (pre ++ MIGRATION_FOLDER_NAME :: suf) pre suf 0
    (fun q hq he => hfirst (he ▸ hq))]
  rw [Nat.zero_add]

theorem split_ok_of_interior (p : List Char) (d pre suf : List (List Char))
    (hsp : split_path p = some d) (hd : d = pre ++ MIGRATION_FOLDER_NAME :: suf)
    (hpre : pre ≠ []) (hsuf : suf ≠ []) :
    ∃ pr, _split_migration_path p = .ok (some pr) := by
  have hmem : MIGRATION_FOLDER_NAME ∈ d := by
    rw [hd]
    exact List.mem_append_right _ (List.mem_cons_self _ _)
  rcases exists_first_split hmem with ⟨s, t, hst, hns⟩
  have hslen : s.length ≤ pre.length :=
    first_split_min s t pre suf (hst.symm.trans hd) hns
  have hdlen : d.length = pre.length + 1 + suf.length := by
    rw [hd, List.length_append, List.length_cons]
    omega
  have hsufpos : 0 < suf.length := List.length_pos.mpr hsuf
  have hprepos : 0 < pre.length := List.length_pos.mpr hpre
  have hb2 : ∃ x, pyIdx d ((s.length : Int) + 1) = some x := by
    have hcast : ((s.length : Int) + 1) = ((s.length + 1 : Nat) : Int) := by omega
    rw [hcast, pyIdx_ofNat]
    exact ⟨_, List.getElem?_eq_getElem (by omega)⟩
  have hb1 : ∃ x, pyIdx d ((s.length : Int) - 1) = some x := by
    rcases Nat.eq_zero_or_pos s.length with hz | hpos
    · have hdne : d ≠ [] := by
        intro hnil
        rw [hnil, List.length_nil] at hdlen
        omega
      have hcast : ((s.length : Int) - 1) = -1 := by omega
      rw [hcast, pyIdx_neg_one d hdne]
      exact ⟨_, List.getElem?_eq_getElem (by omega)⟩
    · have hcast : ((s.length : Int) - 1) = ((s.length - 1 : Nat) : Int) := by omega
      rw [hcast, pyIdx_ofNat]
      exact ⟨_, List.getElem?_eq_getElem (by omega)⟩
  obtain ⟨b1, h1⟩ := hb1
  obtain ⟨b2, h2⟩ := hb2
  refine ⟨(b1, splitext_root b2), ?_⟩
  rw [split_found_pair p d s t hsp hst hns, h1, h2]

theorem migration_flagged_iff (render : Render) (m a g : List Char)
    (hsp : _split_migration_path m = .ok (some (a, g))) :
    migration_flagged render m = true ↔
      ∃ st ∈ django_sqlmigrate (render a g),
        ( _test_sql_statement_for_backward_incompatibility st).1 = false := by
  rw [migration_flagged_eq, hsp]
  show (!(collectErrors (django_sqlmigrate (render a g))).isEmpty) = true ↔ _
  constructor
  · intro h
    have hne : collectErrors (django_sqlmigrate (render a g)) ≠ [] := by
      intro hnil
      rw [hnil] at h
      simp at h
    by_contra hcon
    push_neg at hcon
    apply hne
    rw [collectErrors_eq_nil_iff]
    intro st hst
    have hns := hcon st hst
    cases hb : ( _test_sql_statement_for_backward_incompatibility st).1
    · exact absurd hb hns
    · rfl
  · rintro ⟨st, hst, hflag⟩
    cases hE : (collectErrors (django_sqlmigrate (render a g))).isEmpty
    · rfl
    · exfalso
      have hnil : collectErrors (django_sqlmigrate (render a g)) = [] := by
        simpa using hE
      have hv := (collectErrors_eq_nil_iff _).mp hnil st hst
      rw [hflag] at hv
      simp at hv

theorem countP_split {α : Type} (p : α → Bool) :
    ∀ l : List α, l.countP p + l.countP (fun a => !p a) = l.length := by
  intro l
  induction l with
  | nil => simp
  | cons a l ih =>
      cases hp : p a
      · rw [countP_cons_false l hp, countP_cons_true l (by rw [hp]; rfl), List.length_cons]
        omega
      · rw [countP_cons_true l hp, countP_cons_false l (by rw [hp]; rfl), List.length_cons]
        omega

/-! ## Claims -/

/-- C1: `_test_sql_statement_for_backward_incompatibility` classifies a
statement as backward-incompatible (returns `is_valid = false`) iff the
statement matches at least one of the three fixed regexes `NOT NULL`,
`DROP COLUMN`, `ADD COLUMN .* DEFAULT`, and no check beyond these three
patterns is applied; in particular a statement containing `NOT NULL` is
flagged, a statement containing `ADD COLUMN x INT DEFAULT 0` is flagged,
and a plain `CREATE INDEX` statement containing none of the patterns is
not flagged. -/
theorem C1_three_rules_iff :
    (∀ s : List Char,
        ( _test_sql_statement_for_backward_incompatibility s).1 = false ↔
          (ContainsSpec ("NOT NULL").toList s ∨ ContainsSpec ("DROP COLUMN").toList s ∨
            AddColDefaultSpec s)) ∧
    (∀ s : List Char, ContainsSpec ("NOT NULL").toList s →
        ( _test_sql_statement_for_backward_incompatibility s).1 = false) ∧
    (∀ s : List Char, ContainsSpec ("ADD COLUMN x INT DEFAULT 0").toList s →
        ( _test_sql_statement_for_backward_incompatibility s).1 = false) ∧
    _test_sql_statement_for_backward_incompatibility
        ("CREATE INDEX index_col ON my_table (my_col);").toList = (true, none) := by
  refine ⟨test_flagged_iff, ?_, ?_, by rfl⟩
  · intro s h
    exact (test_flagged_iff s).mpr (Or.inl h)
  · rintro s ⟨pre, post, h⟩
    apply (test_flagged_iff s).mpr
    refine Or.inr (Or.inr ⟨pre, ("x INT").toList, (" 0").toList ++ post, ?_, by decide⟩)
    rw [h]
    have hsplit : ("ADD COLUMN x INT DEFAULT 0").toList =
        ("ADD COLUMN ").toList ++ ("x INT").toList ++ (" DEFAULT").toList ++
          (" 0").toList := by
      decide
    rw [hsplit]
    simp [List.append_assoc]

/-- Witness for C1 at concrete statements. -/
theorem C1_witness :
    ( _test_sql_statement_for_backward_incompatibility
        ("ALTER TABLE t ALTER COLUMN c SET NOT NULL;").toList).1 = false ∧
    ( _test_sql_statement_for_backward_incompatibility
        ("ALTER TABLE t ADD COLUMN x INT DEFAULT 0;").toList).1 = false :=
  ⟨C1_three_rules_iff.2.1 _
      ⟨("ALTER TABLE t ALTER COLUMN c SET ").toList, (";").toList, by decide⟩,
    C1_three_rules_iff.2.2.1 _
      ⟨("ALTER TABLE t ").toList, (";").toList, by decide⟩⟩

/-- C10: each statement produces at most one error message — that of the
first matching rule, in the fixed order NOT NULL, DROP COLUMN,
ADD COLUMN ... DEFAULT (a statement matching both the first and the third
rule yields only the NOT NULL message) — and per migration each distinct
message is collected at most once, the error set being duplicate-free. -/
theorem C10_first_rule_and_dedup :
    (∀ s : List Char, strContains ("NOT NULL").toList s = true →
        _test_sql_statement_for_backward_incompatibility s =
          (false, some "NOT NULL constraint on columns")) ∧
    (∀ s : List Char, strContains ("NOT NULL").toList s = false →
        strContains ("DROP COLUMN").toList s = true →
        _test_sql_statement_for_backward_incompatibility s =
          (false, some "DROPPING columns")) ∧
    (∀ s : List Char, strContains ("NOT NULL").toList s = false →
        strContains ("DROP COLUMN").toList s = false →
        matchAddColumnDefault s = true →
        _test_sql_statement_for_backward_incompatibility s =
          (false, some "ADD columns with default")) ∧
    _test_sql_statement_for_backward_incompatibility
        ("ALTER TABLE t ADD COLUMN c integer DEFAULT 0 NOT NULL;").toList =
      (false, some "NOT NULL constraint on columns") ∧
    (∀ stmts : List (List Char), (collectErrors stmts).Nodup) := by
  refine ⟨?_, ?_, ?_, by rfl, collectErrors_nodup⟩
  · intro s h
    rw [test_eq_cases, if_pos h]
  · intro s h1 h2
    rw [test_eq_cases, if_neg (by rw [h1]; simp), if_pos h2]
  · intro s h1 h2 h3
    rw [test_eq_cases, if_neg (by rw [h1]; simp), if_neg (by rw [h2]; simp), if_pos h3]

/-- Witness for C10 at concrete statements. -/
theorem C10_witness :
    _test_sql_statement_for_backward_incompatibility ("a NOT NULL b").toList =
      (false, some "NOT NULL constraint on columns") ∧
    _test_sql_statement_for_backward_incompatibility ("a DROP COLUMN b").toList =
      (false, some "DROPPING columns") ∧
    _test_sql_statement_for_backward_incompatibility
        ("ADD COLUMN c real DEFAULT 1").toList =
      (false, some "ADD columns with default") :=
  ⟨C10_first_rule_and_dedup.1 _ (by decide),
    C10_first_rule_and_dedup.2.1 _ (by decide) (by decide),
    C10_first_rule_and_dedup.2.2.1 _ (by decide) (by decide) (by decide)⟩

/-- C3: during gathering, a diff-output line is added to
`changed_migration_files` iff it contains the substring `migrations`
(`MIGRATION_FOLDER_NAME`): the gathered list is exactly the stripped
matching lines. -/
theorem C3_gather_membership (lines : List (List Char)) :
    _gather_migrations lines 0 = .ok (gatherLoop lines) ∧
    gatherLoop lines =
      (lines.filter (fun l => strContains MIGRATION_FOLDER_NAME l)).map pyStrip ∧
    (∀ l ∈ lines, ContainsSpec MIGRATION_FOLDER_NAME l →
        pyStrip l ∈ gatherLoop lines) ∧
    (∀ x ∈ gatherLoop lines, ∃ l ∈ lines,
        ContainsSpec MIGRATION_FOLDER_NAME l ∧ x = pyStrip l) := by
  refine ⟨by rfl, gatherLoop_eq lines, ?_, ?_⟩
  · intro l hl hc
    rw [gatherLoop_eq]
    exact List.mem_map_of_mem pyStrip
      (List.mem_filter.mpr ⟨hl, (strContains_iff _ l).mpr hc⟩)
  · intro x hx
    rw [gatherLoop_eq] at hx
    rcases List.mem_map.mp hx with ⟨l, hlf, rfl⟩
    rcases List.mem_filter.mp hlf with ⟨hl, hP⟩
    exact ⟨l, hl, (strContains_iff _ l).mp hP, rfl⟩

/-- Witness for C3 at a concrete diff output. -/
theorem C3_witness :
    pyStrip (" app/migrations/0001_initial.py\n").toList ∈
      gatherLoop [(" app/migrations/0001_initial.py\n").toList, ("README.md\n").toList] :=
  (C3_gather_membership _).2.2.1 _ (by decide)
    ⟨(" app/").toList, ("/0001_initial.py\n").toList, by decide⟩

/-- C4: a nonzero return code of the git diff command makes
`_gather_migrations` raise the fatal exception
`Error while executing git diff command`, and no migration checking takes
place; when the diff command succeeds no such exception is raised. -/
theorem C4_git_diff_error (diffLines : List (List Char)) (returncode : Int)
    (render : Render) :
    (returncode ≠ 0 →
      _gather_migrations diffLines returncode =
          .error "Error while executing git diff command" ∧
      run_checker diffLines returncode render =
          .error "Error while executing git diff command") ∧
    (returncode = 0 →
      _gather_migrations diffLines returncode = .ok (gatherLoop diffLines)) := by
  constructor
  · intro h
    have hg : _gather_migrations diffLines returncode =
        .error "Error while executing git diff command" := by
      simp only [ _gather_migrations]
      rw [if_pos h]
    refine ⟨hg, ?_⟩
    rw [run_checker, hg]
  · intro h
    simp only [ _gather_migrations]
    rw [if_neg (fun hne => hne h)]

/-- Witness for C4 at a concrete failing return code. -/
theorem C4_witness :
    run_checker [("app/migrations/0001_initial.py\n").toList] 1 exampleRender =
      .error "Error while executing git diff command" :=
  ((C4_git_diff_error _ 1 exampleRender).1 (by decide)).2

/-- C5: `valid_folder` returns `True` iff the argument is an existing
directory containing a `manage.py` file and a `.git/` subdirectory; when a
check fails it prints exactly one diagnostic message and returns `False`,
and then the main entry point constructs no checker and checks no
migrations. -/
theorem C5_valid_folder (fs : FileSystem) (folder : String)
    (diffLines : List (List Char)) (returncode : Int) (render : Render) :
    ((valid_folder fs folder).1 = true ↔
      (fs.isdir folder = true ∧
        fs.isfile (os_path_join folder "manage.py") = true ∧
        fs.isdir (os_path_join folder ".git") = true)) ∧
    ((valid_folder fs folder).1 = false → (valid_folder fs folder).2.length = 1) ∧
    ((valid_folder fs folder).1 = false →
      main_entry fs folder diffLines returncode render = none) := by
  refine ⟨?_, ?_, ?_⟩
  · rw [valid_folder]
    split_ifs with h1 h2 h3 <;> simp_all
  · rw [valid_folder]
    split_ifs <;> simp
  · intro h
    rw [main_entry, if_neg (by rw [h]; simp)]

/-- Witness for C5 at a concrete invalid folder. -/
theorem C5_witness :
    main_entry badFS "proj" [] 0 exampleRender = none :=
  (C5_valid_folder badFS "proj" [] 0 exampleRender).2.2 (by rfl)

/-- C7: the check is a deterministic, sequential function of the external
commands' outputs: two runs with identical diff output, identical diff
return code and identical sqlmigrate outputs produce the same gathered
file list and the same result — per-migration verdict lines, error
message lines, and summary counts. -/
theorem C7_determinism (d1 d2 : List (List Char)) (rc1 rc2 : Int) (r1 r2 : Render)
    (hd : d1 = d2) (hrc : rc1 = rc2)
    (hr : ∀ app_name migration_name,
      r1 app_name migration_name = r2 app_name migration_name) :
    gatherLoop d1 = gatherLoop d2 ∧
    run_checker d1 rc1 r1 = run_checker d2 rc2 r2 := by
  have hre : r1 = r2 := funext fun a => funext fun g => hr a g
  subst hd
  subst hrc
  subst hre
  exact ⟨rfl, rfl⟩

/-- Witness for C7 at concrete equal inputs. -/
theorem C7_witness :
    gatherLoop [("app/migrations/0001_initial.py\n").toList] =
      gatherLoop [("app/migrations/0001_initial.py\n").toList] ∧
    run_checker [("app/migrations/0001_initial.py\n").toList] 0 exampleRender =
      run_checker [("app/migrations/0001_initial.py\n").toList] 0 exampleRender :=
  C7_determinism _ _ 0 0 exampleRender exampleRender rfl rfl (fun _ _ => rfl)

/-- C2: in every completed run of `check_migrations`, each gathered
migration file is counted exactly once — as erroneous iff at least one of
its rendered non-comment SQL statements matches one of the three rules,
as valid otherwise — and the printed summary satisfies
`nb_valid + nb_erroneous = total`. -/
theorem C2_counts (render : Render) (files : List (List Char)) (v e : Nat)
    (out : List String)
    (h : check_migrations render files = .ok (v, e, out)) :
    v + e = files.length ∧
    v = files.countP (fun m => ! migration_flagged render m) ∧
    e = files.countP (migration_flagged render) ∧
    (∀ m app_name migration_name,
        _split_migration_path m = .ok (some (app_name, migration_name)) →
        (migration_flagged render m = true ↔
          ∃ st ∈ django_sqlmigrate (render app_name migration_name),
            (ContainsSpec ("NOT NULL").toList st ∨
              ContainsSpec ("DROP COLUMN").toList st ∨ AddColDefaultSpec st))) ∧
    ∃ progress, out = progress ++ ["*** Summary:", summaryLine v e files.length] := by
  rw [check_migrations_eq] at h
  rcases hcl : check_loop render files 0 0 [] with err | ⟨v0, e0, out0⟩
  · rw [hcl] at h
    exact absurd h (by simp)
  · rw [hcl] at h
    have h' : v0 = v ∧ e0 = e ∧
        out0 ++ ["*** Summary:", summaryLine v0 e0 files.length] = out := by
      simpa using h
    obtain ⟨rfl, rfl, hout⟩ := h'
    obtain ⟨hv, he⟩ := check_loop_counts render files 0 0 [] v0 e0 out0 hcl
    have hsplit := countP_split (migration_flagged render) files
    refine ⟨by omega, by omega, by omega, ?_, ⟨out0, hout.symm⟩⟩
    intro m app_name migration_name hsp
    rw [migration_flagged_iff render m app_name migration_name hsp]
    exact exists_congr fun st => and_congr_right fun _ => test_flagged_iff st

/-- Witness for C2 at a concrete two-migration run. -/
theorem C2_witness : 1 + 1 = exampleFiles.length :=
  (C2_counts exampleRender exampleFiles 1 1
    ["app/migrations/0001_initial.py... OK", "app/migrations/0002_drop.py... ERR",
      "\tDROPPING columns", "*** Summary:",
      "Valid migrations: 1/2 - erroneous migrations: 1/2"] (by rfl)).1

/-- C6: the program sets no explicit exit code: whenever the run
completes normally — whatever the valid/erroneous counts, in particular
with erroneous migrations present — the process terminates with the
default success status 0. -/
theorem C6_exit_code (fs : FileSystem) (folder : String) (diffLines : List (List Char))
    (returncode : Int) (render : Render) (v e : Nat) (out : List String)
    (h : main_entry fs folder diffLines returncode render = some (.ok (v, e, out))) :
    program_exit_code fs folder diffLines returncode render = 0 := by
  rw [program_exit_code, h]

/-- Witness for C6: a run classifying one migration erroneous still exits
with status 0. -/
theorem C6_witness :
    program_exit_code goodFS "proj" [("app/migrations/0002_drop.py\n").toList] 0
      exampleRender = 0 :=
  C6_exit_code goodFS "proj" [("app/migrations/0002_drop.py\n").toList] 0
    exampleRender 0 1
    ["app/migrations/0002_drop.py... ERR", "\tDROPPING columns", "*** Summary:",
      "Valid migrations: 0/1 - erroneous migrations: 1/1"] (by rfl)

/-- C8: `django_sqlmigrate` returns exactly the renderer's output lines
that do not start with `--`, each stripped of surrounding whitespace;
consequently an unsafe pattern that appears only on SQL comment lines
never causes a migration to be classified erroneous. -/
theorem C8_comments_ignored (lines : List (List Char)) :
    django_sqlmigrate lines =
      (lines.filter (fun l => !(("--").toList.isPrefixOf l))).map pyStrip ∧
    ((∀ l ∈ lines, ("--").toList.isPrefixOf l = false →
        ¬(ContainsSpec ("NOT NULL").toList (pyStrip l) ∨
          ContainsSpec ("DROP COLUMN").toList (pyStrip l) ∨
          AddColDefaultSpec (pyStrip l))) →
      collectErrors (django_sqlmigrate lines) = []) := by
  refine ⟨django_sqlmigrate_eq lines, ?_⟩
  intro hsafe
  rw [collectErrors_eq_nil_iff]
  intro st hst
  rw [django_sqlmigrate_eq] at hst
  rcases List.mem_map.mp hst with ⟨l, hlf, rfl⟩
  rcases List.mem_filter.mp hlf with ⟨hl, hP⟩
  have hP' : (!(("--").toList.isPrefixOf l)) = true := hP
  have hpre : ("--").toList.isPrefixOf l = false := by
    cases hb : ("--").toList.isPrefixOf l
    · rfl
    · rw [hb] at hP'
      simp at hP'
  exact (test_valid_iff _).mpr (hsafe l hl hpre)

/-- Witness for C8: a `DROP COLUMN`/`NOT NULL` pattern occurring only in
an SQL comment line yields no collected error. -/
theorem C8_witness :
    collectErrors (django_sqlmigrate
      [("-- ALTER TABLE t DROP COLUMN c NOT NULL\n").toList,
        ("BEGIN;\n").toList]) = [] :=
  (C8_comments_ignored _).2 (by
    intro l hl hpre
    rcases List.mem_cons.mp hl with rfl | hl2
    · exact absurd hpre (by decide)
    · rcases List.mem_cons.mp hl2 with rfl | hl3
      · exact (test_valid_iff _).mp (by decide)
      · simp at hl3)

/-- C9 counterexample: the gathered path `migrations/0001_initial.py` has
no interior component equal to `migrations` (the only such component is
the first), yet `_split_migration_path` still returns a pair — Python
negative indexing takes the app name from the last component — and
`check_migrations` completes without exception, refuting the claimed
precondition for exception-free completion. -/
theorem C9_counterexample :
    split_path ("migrations/0001_initial.py").toList =
      some [MIGRATION_FOLDER_NAME, ("0001_initial.py").toList] ∧
    ("0001_initial.py").toList ≠ MIGRATION_FOLDER_NAME ∧
    _split_migration_path ("migrations/0001_initial.py").toList =
      .ok (some (("0001_initial.py").toList, ("0001_initial").toList)) ∧
    (check_migrations exampleRender [("migrations/0001_initial.py").toList]).isOk =
      true :=
  ⟨by rfl, by decide, by rfl, by rfl⟩

/-- C9 (amended): `_split_migration_path` returns a pair only when some
path component equals `migrations` exactly; when `migrations` occurs only
as a proper substring of components it returns `None` and
`check_migrations` fails with a `TypeError`. Every gathered path having
an interior `migrations` component followed by a further component is
sufficient for `check_migrations` to complete without exception — but not
necessary, as a leading `migrations` component also succeeds via negative
indexing — and when the first `migrations` component is interior, the
returned pair is the component immediately before it and the
extension-stripped component immediately after it. -/
theorem C9_amended :
    (∀ p app_name migration_name,
        _split_migration_path p = .ok (some (app_name, migration_name)) →
        ∃ d, split_path p = some d ∧ MIGRATION_FOLDER_NAME ∈ d) ∧
    (∀ p d, split_path p = some d → MIGRATION_FOLDER_NAME ∉ d →
        _split_migration_path p = .ok none) ∧
    (∀ (p : List Char) (rest : List (List Char)) (render : Render),
        _split_migration_path p = .ok none →
        check_migrations render (p :: rest) = .error "TypeError") ∧
    (∀ (render : Render) (files : List (List Char)),
        (∀ p ∈ files, ∃ d pre suf, split_path p = some d ∧
            d = pre ++ MIGRATION_FOLDER_NAME :: suf ∧ pre ≠ [] ∧ suf ≠ []) →
        (check_migrations render files).isOk = true) ∧
    (∀ (p : List Char) (d pre : List (List Char)) (b : List Char)
        (suf : List (List Char)) (a : List Char) (pre0 : List (List Char)),
        split_path p = some d →
        d = pre ++ MIGRATION_FOLDER_NAME :: b :: suf →
        MIGRATION_FOLDER_NAME ∉ pre →
        pre = pre0 ++ [a] →
        _split_migration_path p = .ok (some (a, splitext_root b))) := by
  refine ⟨?_, ?_, ?_, ?_, ?_⟩
  · intro p app_name migration_name h
    rw [ _split_eq] at h
    rcases hs : split_path p with - | d
    · rw [hs] at h
      exact absurd h (by simp)
    · rw [hs] at h
      refine ⟨d, rfl, ?_⟩
      by_contra hmem
      rw [show (match some d with
            | none => Except.error "RecursionError"
            | some d => splitLoop d 0 d) = splitLoop d 0 d from rfl] at h
      rw [splitLoop_not_found d d 0 (fun q hq he => hmem (he ▸ hq))] at h
      simp at h
  · intro p d hs hmem
    rw [ _split_eq, hs]
    show splitLoop d 0 d = _
    exact splitLoop_not_found d d 0 (fun q hq he => hmem (he ▸ hq))
  · intro p rest render h
    rw [check_migrations_eq, check_loop_cons_none render rest 0 0 [] h]
  · intro render files hall
    have hok : ∀ p ∈ files, ∃ pr, _split_migration_path p = .ok (some pr) := by
      intro p hp
      rcases hall p hp with ⟨d, pre, suf, hsp, hd, hpre, hsuf⟩
      exact split_ok_of_interior p d pre suf hsp hd hpre hsuf
    rcases check_loop_isOk render files 0 0 [] hok with ⟨⟨v0, e0, out0⟩, hcl⟩
    rw [check_migrations_eq, hcl]
    rfl
  · intro p d pre b suf a pre0 hsp hd hfirst hpre0
    rw [split_found_pair p d pre (b :: suf) hsp hd hfirst]
    have hlen : pre.length = pre0.length + 1 := by
      rw [hpre0, List.length_append, List.length_cons, List.length_nil]
    have h1 : pyIdx d ((pre.length : Int) - 1) = some a := by
      have hcast : ((pre.length : Int) - 1) = ((pre0.length : Nat) : Int) := by omega
      rw [hcast, pyIdx_ofNat, hd, hpre0]
      rw [List.getElem?_append]
      rw [if_pos (by rw [List.length_append, List.length_cons, List.length_nil]; omega)]
      rw [List.getElem?_append]
      rw [if_neg (by omega)]
      simp
    have h2 : pyIdx d ((pre.length : Int) + 1) = some b := by
      have hcast : ((pre.length : Int) + 1) = ((pre.length + 1 : Nat) : Int) := by omega
      rw [hcast, pyIdx_ofNat, hd]
      rw [List.getElem?_append]
      rw [if_neg (by omega)]
      have hidx : pre.length + 1 - pre.length = 1 := by omega
      rw [hidx]
      simp
    rw [h1, h2]

/-- Witness for the amended C9: a path with an interior `migrations`
component makes `check_migrations` complete without exception. -/
theorem C9_amended_witness :
    (check_migrations exampleRender [("app/migrations/0001_initial.py").toList]).isOk =
      true := by
  apply C9_amended.2.2.2.1 exampleRender
  intro p hp
  rcases List.mem_cons.mp hp with rfl | hp2
  · exact ⟨[("app").toList, MIGRATION_FOLDER_NAME, ("0001_initial.py").toList],
      [("app").toList], [("0001_initial.py").toList], by rfl, by rfl, by decide,
      by decide⟩
  · simp at hp2
